import Mathlib

/-!
Verification development for the browser-based pose-capture and classification
demo.  The client side is embedded as pure state-transition functions: the
ML5 context helpers (feature extraction, classification, the p5 instance
manager), the three Training view variants (the basic collector, the
countdown collector with `isPoseValid`, and the advanced collector with
`assessPoseQuality`), the Testing view's debounced prediction loop, and the
backend pose-data bulk-insert route.  Numbers are modelled as rationals;
optional JS values (possibly-absent object properties, possibly-null array
elements) are modelled with `Option`.
-/

namespace BjjPose

/-- A detected body keypoint as delivered by the pose estimator.  Every field
is optional: JS code guards against absent properties (`kp.x || 0`,
`kp.confidence > t` where an undefined confidence compares as false). -/
structure Keypoint where
  x : Option ℚ
  y : Option ℚ
  confidence : Option ℚ
deriving Repr, DecidableEq

/-- A detected pose; `keypoints` is optional because the code checks
`pose?.keypoints` before using it, and the array may hold null slots
(the basic collector checks `if (keypoint)`). -/
structure Pose where
  keypoints : Option (List (Option Keypoint))
deriving Repr, DecidableEq

/-- The argument of a detection callback: `results` may be null
(`results || []`) and its entries may be null (`pose?.keypoints`). -/
abbrev DetectionResults := Option (List (Option Pose))

/-- `CONFIDENCE_THRESHOLD = 0.3`, declared identically in every view file. -/
def CONFIDENCE_THRESHOLD : ℚ := 3 / 10

/-- The test `kp.confidence > CONFIDENCE_THRESHOLD` used by the keypoint
filters.  An absent confidence (or a null keypoint slot) compares as false,
matching JS comparison with `undefined`. -/
def confAbove (kp : Option Keypoint) : Bool :=
  match kp with
  | none => false
  | some k =>
    match k.confidence with
    | none => false
    | some c => decide (c > CONFIDENCE_THRESHOLD)

/-- The keypoint list of the first pose, when present: `results?.[0]?.keypoints`. -/
def firstPoseKeypoints (results : DetectionResults) : Option (List (Option Keypoint)) :=
  match results with
  | none => none
  | some [] => none
  | some (none :: _) => none
  | some (some p :: _) => p.keypoints

/-- `results && results.length > 0`. -/
def resultsNonempty (results : DetectionResults) : Bool :=
  match results with
  | some (_ :: _) => true
  | _ => false

namespace ML5Context

/-- The option record passed to `ml5.neuralNetwork` by `createNeuralNetwork`
and `createAdvancedNeuralNetwork`. -/
structure NNOptions where
  inputs : Nat
  outputs : Nat
  task : String
  debug : Bool
deriving Repr, DecidableEq

/-- The default options of both network constructors: 34 inputs
(17 keypoints times 2 coordinates), 1 output, classification task. -/
def defaultOptions : NNOptions :=
  { inputs := 34, outputs := 1, task := "classification", debug := true }

/-- The two numbers one keypoint slot contributes to the feature vector:
`keypoint.x || 0, keypoint.y || 0` for a present keypoint, `0, 0` for a null
slot.  (For the default 0, JS `||` and `Option.getD` agree.) -/
def keypointCoords (kp : Option Keypoint) : List ℚ :=
  match kp with
  | some k => [k.x.getD 0, k.y.getD 0]
  | none => [0, 0]

/-- `extractPoseFeatures`: x,y pairs of the first pose's keypoints, padded
with zeros up to 34 entries and truncated to exactly 34; the all-zero vector
when no pose or no keypoint list is present. -/
def extractPoseFeatures (poses : DetectionResults) : List ℚ :=
  match poses with
  | none => List.replicate 34 0
  | some [] => List.replicate 34 0
  | some (none :: _) => List.replicate 34 0
  | some (some pose :: _) =>
    match pose.keypoints with
    | none => List.replicate 34 0
    | some kps =>
      let inputs := kps.flatMap keypointCoords
      (inputs ++ List.replicate (34 - inputs.length) 0).take 34

/-- One entry of the result array handed to the classify callback; both
fields may be absent (`bestResult.label || 'unknown'`,
`bestResult.confidence || 0`). -/
structure RawResult where
  label : Option String
  confidence : Option ℚ

/-- What a concrete `network.classify(inputs, cb)` call does for given
inputs: throw synchronously, or invoke the callback with a result value
(null, or an array). -/
inductive ClassifyOutcome where
  | throwsError
  | callbackWith (results : Option (List RawResult))

/-- A trained network, abstracted by the behaviour of its classify call. -/
def Network := List ℚ → ClassifyOutcome

/-- The object every `classifyPose` promise resolves with. -/
structure ClassificationResult where
  label : String
  confidence : ℚ
deriving Repr, DecidableEq

/-- JS `a || b` on an optional string: an absent or empty string falls back
to the default. -/
def jsOrString (o : Option String) (d : String) : String :=
  match o with
  | none => d
  | some s => if s = "" then d else s

/-- `classifyPose`: validation checks, feature extraction, then the
classify call; every failure path resolves with a sentinel label and
confidence 0 instead of rejecting. -/
def classifyPose (poses : DetectionResults) (network : Option Network) : ClassificationResult :=
  match network with
  | none => { label := "no_model", confidence := 0 }
  | some net =>
    match poses with
    | none => { label := "no_pose", confidence := 0 }
    | some ps =>
      if ps.length = 0 then { label := "no_pose", confidence := 0 }
      else
        let inputs := extractPoseFeatures (some ps)
        if inputs.length ≠ 34 then { label := "invalid_features", confidence := 0 }
        else
          match net inputs with
          | .throwsError => { label := "exception", confidence := 0 }
          | .callbackWith none => { label := "classification_error", confidence := 0 }
          | .callbackWith (some []) => { label := "no_results", confidence := 0 }
          | .callbackWith (some (best :: _)) =>
            { label := jsOrString best.label "unknown",
              confidence := best.confidence.getD 0 }

/-- The p5 instance registry of the context provider; `removedLog` records
every instance on which `.remove()` has been called, in order. -/
structure P5ManagerState where
  instances : List Nat
  removedLog : List Nat
deriving Repr, DecidableEq

/-- `p5Manager.createInstance`: call `.remove()` on every registered
instance, clear the registry, then create the new instance, register it and
return it. -/
def createInstance (s : P5ManagerState) (newInstance : Nat) : P5ManagerState × Nat :=
  let cleared : P5ManagerState :=
    { instances := [], removedLog := s.removedLog ++ s.instances }
  ({ cleared with instances := cleared.instances ++ [newInstance] }, newInstance)

end ML5Context

/-- The six sentinel labels a failed `classifyPose` resolves with; the
Testing view filters exactly this list. -/
def sentinelLabels : List String :=
  ["no_model", "no_pose", "invalid_features", "classification_error", "no_results", "exception"]

/-- The training-flow events we track for the ordering claims: user-visible
alerts, network creation, the markers that training started or completed,
the `normalizeData` and `train` calls, publishing to the shared model
handle, and the localStorage flag writes. -/
inductive TrainEvent where
  | alertShown
  | createNetworkCall
  | markTrainingStarted
  | normalizeDataCall
  | trainCall
  | markTrainingComplete
  | setSharedTrainedModelCall
  | setLocalStorageFlag
deriving Repr, DecidableEq

namespace TrainingBasic

/-- State of the basic Training view's collector that the detection
callback reads and writes: the latest poses, the recording flags, and the
network's training buffer (the log of `addData` calls as
feature-vector/label pairs). -/
structure State where
  poses : List (Option Pose)
  isCollecting : Bool
  currentPose : String
  samplesCollected : Nat
  trainingBuffer : List (List ℚ × String)
  hasNetwork : Bool
deriving Repr, DecidableEq

/-- The basic Training view's `gotPoses` callback: store the poses, and
while collecting (with a nonempty result list and an initialized network)
add the extracted features of any first pose that has keypoints — there is
no quality gate in this variant. -/
def gotPoses (s : State) (results : DetectionResults) : State :=
  let s0 := { s with poses := results.getD [] }
  if s0.isCollecting && resultsNonempty results && s0.hasNetwork then
    match firstPoseKeypoints results with
    | some _ =>
      { s0 with
        trainingBuffer :=
          s0.trainingBuffer ++ [(ML5Context.extractPoseFeatures results, s0.currentPose)],
        samplesCollected := s0.samplesCollected + 1 }
    | none => s0
  else s0

end TrainingBasic

namespace TrainingSimple

/-- `SAMPLES_PER_POSE = 100` in the countdown Training variant. -/
def SAMPLES_PER_POSE : Nat := 100

/-- `isPoseValid`: the first pose exists, has keypoints, and at least 10 of
them have confidence above the threshold. -/
def isPoseValid (poses : DetectionResults) : Bool :=
  match poses with
  | none => false
  | some [] => false
  | some (none :: _) => false
  | some (some pose :: _) =>
    match pose.keypoints with
    | none => false
    | some kps => decide (10 ≤ (kps.filter confAbove).length)

/-- A finished collection session of the countdown Training variant. -/
structure PoseSession where
  pose : String
  samples : Nat
deriving Repr, DecidableEq

/-- State of the countdown Training view read and written by its detection
callback. -/
structure State where
  poses : List (Option Pose)
  isCollecting : Bool
  isCountdownActive : Bool
  currentPose : String
  samplesCollected : Nat
  trainingBuffer : List (List ℚ × String)
  poseSessions : List PoseSession
deriving Repr, DecidableEq

/-- The countdown Training view's `gotPoses` callback: collect only while
collecting, not during the countdown, below the per-pose cap, and only
when `isPoseValid` holds; on reaching the cap, stop collecting, save the
session and reset the per-pose counters. -/
def gotPoses (s : State) (results : DetectionResults) : State :=
  let s0 := { s with poses := results.getD [] }
  if s0.isCollecting && !s0.isCountdownActive && (firstPoseKeypoints results).isSome
      && decide (s0.samplesCollected < SAMPLES_PER_POSE) && isPoseValid results then
    let s1 :=
      { s0 with
        trainingBuffer :=
          s0.trainingBuffer ++ [(ML5Context.extractPoseFeatures results, s0.currentPose)] }
    let newCount := s1.samplesCollected + 1
    if SAMPLES_PER_POSE ≤ newCount then
      { s1 with
        isCollecting := false,
        poseSessions := s1.poseSessions ++ [{ pose := s1.currentPose, samples := SAMPLES_PER_POSE }],
        currentPose := "",
        samplesCollected := 0 }
    else { s1 with samplesCollected := newCount }
  else s0

/-- `trainModel` of the countdown Training variant up to the `train` call:
alert when fewer than two sessions were recorded or the network is missing,
else mark training started, normalize, then train. -/
def trainModelTrace (sessions : List PoseSession) (hasNetwork : Bool) : List TrainEvent :=
  if sessions.length < 2 then [.alertShown]
  else if !hasNetwork then [.alertShown]
  else [.markTrainingStarted, .normalizeDataCall, .trainCall]

/-- The training-completion callback of `trainModel`: mark the model
trained, publish it to the shared handle, set the localStorage flags. -/
def trainModelDoneTrace : List TrainEvent :=
  [.markTrainingComplete, .setSharedTrainedModelCall, .setLocalStorageFlag]

end TrainingSimple

namespace TrainingAdvanced

/-- `SAMPLES_PER_POSE = 30` in the advanced Training variant. -/
def SAMPLES_PER_POSE : Nat := 30

/-- The four pose-quality grades of the advanced Training variant. -/
inductive Quality where
  | excellent
  | good
  | fair
  | poor
deriving Repr, DecidableEq

/-- Confidence of a keypoint slot with the absent cases defaulting to 0
(only slots that passed the confidence filter are ever summed, so the
default is never hit there). -/
def confOf (kp : Option Keypoint) : ℚ :=
  match kp with
  | none => 0
  | some k => k.confidence.getD 0

/-- `assessPoseQuality`: grade the first pose by the fraction of keypoints
above the confidence threshold and their average confidence.  Division by
zero yields 0 in ℚ where JS yields NaN; both fail every `>` test against
the positive cutoffs, so the resulting grade (poor) agrees. -/
def assessPoseQuality (poses : DetectionResults) : Quality :=
  match poses with
  | none => .poor
  | some [] => .poor
  | some (none :: _) => .poor
  | some (some pose :: _) =>
    match pose.keypoints with
    | none => .poor
    | some kps =>
      let validKeypoints := kps.filter confAbove
      let completeness : ℚ := (validKeypoints.length : ℚ) / (kps.length : ℚ)
      let avgConfidence : ℚ :=
        (validKeypoints.map confOf).sum / (validKeypoints.length : ℚ)
      if completeness > 9 / 10 ∧ avgConfidence > 8 / 10 then .excellent
      else if completeness > 8 / 10 ∧ avgConfidence > 7 / 10 then .good
      else if completeness > 6 / 10 ∧ avgConfidence > 1 / 2 then .fair
      else .poor

/-- A finished recording session of the advanced Training variant. -/
structure TrainingSession where
  pose : String
  samplesCollected : Nat
  quality : Quality
deriving Repr, DecidableEq

/-- State of the advanced Training view read and written by its detection
callback and its recording controls. -/
structure State where
  poses : List (Option Pose)
  isRecording : Bool
  countdown : Nat
  currentPose : String
  samplesCollected : Nat
  poseQuality : Quality
  trainingBuffer : List (List ℚ × String)
  trainingSessions : List TrainingSession
deriving Repr, DecidableEq

/-- The advanced Training view's `gotPoses` callback: store poses and the
freshly assessed quality; while recording below the cap, add the sample
only when the assessed quality is not poor; on reaching the cap, stop
recording, save the session and reset the per-pose counters. -/
def gotPoses (s : State) (results : DetectionResults) : State :=
  let s0 := { s with poses := results.getD [], poseQuality := assessPoseQuality results }
  if s0.isRecording && (firstPoseKeypoints results).isSome
      && decide (s0.samplesCollected < SAMPLES_PER_POSE) then
    let quality := assessPoseQuality results
    if quality ≠ .poor then
      let s1 :=
        { s0 with
          trainingBuffer :=
            s0.trainingBuffer ++ [(ML5Context.extractPoseFeatures results, s0.currentPose)] }
      let newCount := s1.samplesCollected + 1
      if SAMPLES_PER_POSE ≤ newCount then
        { s1 with
          isRecording := false,
          trainingSessions :=
            s1.trainingSessions ++
              [{ pose := s1.currentPose, samplesCollected := SAMPLES_PER_POSE, quality := quality }],
          currentPose := "",
          samplesCollected := 0 }
      else { s1 with samplesCollected := newCount }
    else s0
  else s0

/-- The events that drive the advanced Training view's recording lifecycle:
a click on the record button (a no-op while it is disabled, i.e. while
recording or during the countdown), one tick of the countdown interval, a
keystroke in the pose-name input, and one detection callback. -/
inductive Event where
  | startRecording
  | countdownTick
  | setPoseName (name : String)
  | detect (results : DetectionResults)

/-- One step of the advanced Training view's recording lifecycle. -/
def step (s : State) (e : Event) : State :=
  match e with
  | .startRecording =>
    if s.isRecording || decide (0 < s.countdown) then s
    else { s with countdown := 3 }
  | .countdownTick =>
    if s.countdown = 0 then s
    else if s.countdown ≤ 1 then { s with countdown := 0, isRecording := true, samplesCollected := 0 }
    else { s with countdown := s.countdown - 1 }
  | .setPoseName name =>
    if s.isRecording || decide (0 < s.countdown) then s
    else { s with currentPose := name }
  | .detect results => gotPoses s results

/-- The advanced Training view's initial state. -/
def initState : State :=
  { poses := [], isRecording := false, countdown := 0, currentPose := "",
    samplesCollected := 0, poseQuality := .fair, trainingBuffer := [],
    trainingSessions := [] }

/-- The state after a sequence of lifecycle events from the initial state. -/
def run (events : List Event) : State := events.foldl step initState

/-- `startTraining` of the advanced Training variant up to the `train`
call: alert when fewer than two distinct pose names were recorded or the
total sample count is below the expected amount; create a network when
none is initialized; then mark training started, normalize, and train. -/
def startTrainingTrace (sessions : List TrainingSession) (hasNetwork : Bool) : List TrainEvent :=
  let uniquePoses := (sessions.map (·.pose)).eraseDups
  if uniquePoses.length < 2 then [.alertShown]
  else
    let totalSamples := (sessions.map (·.samplesCollected)).sum
    if totalSamples < uniquePoses.length * SAMPLES_PER_POSE then [.alertShown]
    else
      (if hasNetwork then [] else [.createNetworkCall]) ++
        [.markTrainingStarted, .normalizeDataCall, .trainCall]

/-- The training-completion callback of `startTraining`: mark training
complete, publish the network to the shared handle, set the localStorage
flags. -/
def trainingDoneTrace : List TrainEvent :=
  [.markTrainingComplete, .setSharedTrainedModelCall, .setLocalStorageFlag]

/-- The shared-model related state that the completion callback updates. -/
structure CompletionState where
  trainingStatus : String
  sharedTrainedModel : Option ML5Context.Network
  localStorageFlag : Bool

/-- The completion callback of `startTraining` as a state update: status
becomes complete and the just-trained network is stored in the shared
handle. -/
def onTrainingDone (net : ML5Context.Network) (_st : CompletionState) : CompletionState :=
  { trainingStatus := "complete", sharedTrainedModel := some net, localStorageFlag := true }

end TrainingAdvanced

namespace Testing

/-- A prediction surfaced to the Testing UI. -/
structure PredictionResult where
  label : String
  confidence : ℚ
  timestamp : Int
deriving Repr, DecidableEq

/-- State of the Testing view read and written by `performClassification`.
`classifyCallLog` records the times at which a `classifyPose` call was
actually issued (i.e. the updates of `lastPredictionTimeRef`). -/
structure State where
  isClassifying : Bool
  modelLoaded : Bool
  network : Option ML5Context.Network
  poses : List (Option Pose)
  lastPredictionTime : Int
  predictionSpeed : Int
  confidenceThreshold : ℚ
  currentPrediction : Option PredictionResult
  predictionHistory : List PredictionResult
  classifyCallLog : List Int

/-- The early-return guards of `performClassification`: classification
enabled, model loaded, a network present, and at least one pose. -/
def guardsPass (s : State) : Bool :=
  s.isClassifying && s.modelLoaded && s.network.isSome && !s.poses.isEmpty

/-- The debounce test: at least `predictionSpeed` ms since the last
classification attempt. -/
def debouncePasses (s : State) (now : Int) : Bool :=
  decide (s.predictionSpeed ≤ now - s.lastPredictionTime)

/-- How a classification result reaches the UI: a valid result (nonempty,
non-sentinel label with confidence at or above the user threshold) becomes
the current prediction and is prepended to the history capped at 20
entries; a `no_pose` result clears the current prediction (clearing an
already-absent prediction is the same state); everything else leaves the
predictions untouched. -/
def surfaceResult (s : State) (result : ML5Context.ClassificationResult) (now : Int) : State :=
  if result.label ≠ "" ∧ result.label ∉ sentinelLabels
      ∧ s.confidenceThreshold ≤ result.confidence then
    let newPrediction : PredictionResult :=
      { label := result.label, confidence := result.confidence, timestamp := now }
    { s with
      currentPrediction := some newPrediction,
      predictionHistory := newPrediction :: s.predictionHistory.take 19 }
  else if result.label = "no_pose" then
    { s with currentPrediction := none }
  else s

/-- One invocation of `performClassification` at time `now`: return early
unless the guards and the debounce pass; otherwise record the attempt time,
issue the classify call and surface its result. -/
def performClassification (s : State) (now : Int) : State :=
  if guardsPass s = false then s
  else if debouncePasses s now = false then s
  else
    surfaceResult
      { s with lastPredictionTime := now, classifyCallLog := s.classifyCallLog ++ [now] }
      (ML5Context.classifyPose (some s.poses) s.network) now

/-- A sequence of `performClassification` invocations at the given times. -/
def runClassifications (s : State) (times : List Int) : State :=
  times.foldl performClassification s

/-- `d`-spacing of a list of times: each entry is at least `d` after its
predecessor. -/
def spacedBy (d : Int) : List Int → Bool
  | [] => true
  | [_] => true
  | a :: b :: rest => decide (a + d ≤ b) && spacedBy d (b :: rest)

/-- Result of the Testing view's model-initialization effect. -/
structure ModelInitResult where
  network : Option ML5Context.Network
  modelLoaded : Bool
  modelStatus : String

/-- The Testing view's model-initialization effect: adopt the shared
trained model when one is set; otherwise leave the network reference
untouched, report the model as not loaded, and pick the status message
from the localStorage trained flag. -/
def modelInitEffect (prevNetwork : Option ML5Context.Network)
    (shared : Option ML5Context.Network) (localStorageFlag : Bool) : ModelInitResult :=
  match shared with
  | some m =>
    { network := some m, modelLoaded := true,
      modelStatus := "✅ Model loaded from training session!" }
  | none =>
    if localStorageFlag then
      { network := prevNetwork, modelLoaded := false,
        modelStatus := "❌ Model was trained but not accessible. Please retrain in the same session." }
    else
      { network := prevNetwork, modelLoaded := false,
        modelStatus := "❌ No trained model found. Please train a model first." }

end Testing

namespace Backend

/-- JSON values as received in a request body. -/
inductive Json where
  | null
  | bool (b : Bool)
  | num (q : ℚ)
  | str (s : String)
  | arr (items : List Json)
  | obj (fields : List (String × Json))

/-- A keypoint of an uploaded pose-data frame, as required by the zod
schema. -/
structure PoseKeypoint where
  x : ℚ
  y : ℚ
  confidence : ℚ
deriving Repr, DecidableEq

/-- One validated frame of the pose-data bulk upload. -/
structure PoseFrame where
  frameIndex : ℚ
  keypoints : List PoseKeypoint
  timestamp : ℚ
deriving Repr, DecidableEq

/-- `z.number()`: accepts exactly a JSON number. -/
def asNum : Json → Option ℚ
  | .num q => some q
  | _ => none

/-- Validate one keypoint object: numeric x, y and confidence fields;
extra keys are ignored as zod strips them. -/
def parseKeypoint (j : Json) : Option PoseKeypoint :=
  match j with
  | .obj fields => do
    let x ← (fields.lookup "x").bind asNum
    let y ← (fields.lookup "y").bind asNum
    let c ← (fields.lookup "confidence").bind asNum
    pure { x := x, y := y, confidence := c }
  | _ => none

/-- Validate one frame object of the pose-data schema. -/
def parseFrame (j : Json) : Option PoseFrame :=
  match j with
  | .obj fields => do
    let fi ← (fields.lookup "frameIndex").bind asNum
    let kpsJson ← fields.lookup "keypoints"
    let kps ← match kpsJson with
      | .arr ks => ks.mapM parseKeypoint
      | _ => none
    let ts ← (fields.lookup "timestamp").bind asNum
    pure { frameIndex := fi, keypoints := kps, timestamp := ts }
  | _ => none

/-- `poseDataSchema.parse(poseData)`: an array of valid frames, else a
ZodError (`none`). -/
def parsePoseData (j : Json) : Option (List PoseFrame) :=
  match j with
  | .arr items => items.mapM parseFrame
  | _ => none

/-- A stored video row (the fields the route consults). -/
structure Video where
  id : String
  userId : String
deriving Repr, DecidableEq

/-- A stored PoseData row; `keypoints` is persisted as
`JSON.stringify(keypoints)`, an injective encoding that we keep as the
value itself. -/
structure PoseDataRow where
  videoId : String
  frameIndex : ℚ
  keypoints : List PoseKeypoint
  timestamp : ℚ
deriving Repr, DecidableEq

/-- The database state the route touches. -/
structure Db where
  videos : List Video
  poseData : List PoseDataRow
deriving Repr, DecidableEq

/-- The responses of the pose-data route: 200 with the insert count, 400 on
schema validation failure, 404 when the video is absent or foreign. -/
inductive RouteResponse where
  | ok (count : Nat)
  | badRequest
  | notFound
deriving Repr, DecidableEq

/-- `POST /api/videos/:id/pose-data` for an authenticated user: validate
the body (a ZodError responds 400), verify the video exists and belongs to
the user (else 404), then insert one PoseData row per validated frame and
respond with the inserted count. -/
def postPoseData (db : Db) (userId : String) (videoId : String) (body : Json) :
    Db × RouteResponse :=
  match parsePoseData body with
  | none => (db, .badRequest)
  | some frames =>
    match db.videos.find? (fun v => v.id == videoId && v.userId == userId) with
    | none => (db, .notFound)
    | some _ =>
      let rows := frames.map (fun f =>
        { videoId := videoId, frameIndex := f.frameIndex,
          keypoints := f.keypoints, timestamp := f.timestamp : PoseDataRow })
      ({ db with poseData := db.poseData ++ rows }, .ok rows.length)

end Backend

/-! Concrete states and inputs used to evaluate the definitions. -/

/-- A keypoint with confidence 0, below the 0.3 threshold. -/
def lowConfKeypoint : Keypoint := { x := some 100, y := some 200, confidence := some 0 }

/-- A detection result whose single pose has a single low-confidence
keypoint: `assessPoseQuality` grades it poor and `isPoseValid` rejects it. -/
def lowQualityResults : DetectionResults :=
  some [some { keypoints := some [some lowConfKeypoint] }]

/-- A detection result whose single pose has a single high-confidence
keypoint. -/
def decentResults : DetectionResults :=
  some [some { keypoints := some [some { x := some 100, y := some 200, confidence := some 1 }] }]

/-- A basic-Training state in the middle of an active collection window. -/
def basicCollectingState : TrainingBasic.State :=
  { poses := [], isCollecting := true, currentPose := "guard", samplesCollected := 0,
    trainingBuffer := [], hasNetwork := true }

/-- A countdown-Training state that is not collecting. -/
def simpleIdleState : TrainingSimple.State :=
  { poses := [], isCollecting := false, isCountdownActive := false, currentPose := "",
    samplesCollected := 0, trainingBuffer := [], poseSessions := [] }

/-- A countdown-Training state inside an active collection window. -/
def simpleCollectingState : TrainingSimple.State :=
  { simpleIdleState with isCollecting := true, currentPose := "mount" }

/-- An advanced-Training state inside an active recording window. -/
def advRecordingState : TrainingAdvanced.State :=
  { TrainingAdvanced.initState with isRecording := true, currentPose := "guard" }

/-- A network whose classify call always throws. -/
def throwingNetwork : ML5Context.Network := fun _ => ML5Context.ClassifyOutcome.throwsError

/-- A network whose classify call always reports `guard` with confidence
9/10. -/
def guardNetwork : ML5Context.Network :=
  fun _ => ML5Context.ClassifyOutcome.callbackWith (some [{ label := some "guard", confidence := some (9 / 10) }])

/-- A pose list whose first pose has an empty keypoint list. -/
def emptyKeypointPoses : List (Option Pose) := [some { keypoints := some [] }]

/-- A Testing state whose guards all pass, with an empty classify log. -/
def testingReadyState : Testing.State :=
  { isClassifying := true, modelLoaded := true, network := some guardNetwork,
    poses := emptyKeypointPoses, lastPredictionTime := 0, predictionSpeed := 500,
    confidenceThreshold := 1 / 2, currentPrediction := none, predictionHistory := [],
    classifyCallLog := [] }

/-- A Testing state with real-time classification switched off. -/
def testingDisabledState : Testing.State :=
  { testingReadyState with isClassifying := false }

/-- Two advanced training sessions with distinct pose names, 30 samples
each. -/
def twoAdvSessions : List TrainingAdvanced.TrainingSession :=
  [{ pose := "guard", samplesCollected := 30, quality := .good },
   { pose := "mount", samplesCollected := 30, quality := .excellent }]

/-- Two countdown-variant pose sessions. -/
def twoSimpleSessions : List TrainingSimple.PoseSession :=
  [{ pose := "guard", samples := 100 }, { pose := "mount", samples := 100 }]

/-- A database with one video owned by user u1. -/
def sampleDb : Backend.Db :=
  { videos := [{ id := "v1", userId := "u1" }], poseData := [] }

/-- A well-formed pose-data body with a single one-keypoint frame. -/
def sampleBody : Backend.Json :=
  .arr [.obj [("frameIndex", .num 0),
              ("keypoints", .arr [.obj [("x", .num 5), ("y", .num 7), ("confidence", .num 1)]]),
              ("timestamp", .num 42)]]

/-- The frame `sampleBody` validates to. -/
def sampleFrames : List Backend.PoseFrame :=
  [{ frameIndex := 0, keypoints := [{ x := 5, y := 7, confidence := 1 }], timestamp := 42 }]

/-- A body that fails schema validation (a number is not an array of
frames). -/
def invalidBody : Backend.Json := .num 3

/-! Helper lemmas. -/

/-- The feature vector always has exactly 34 entries. -/
lemma extractPoseFeatures_length (poses : DetectionResults) :
    (ML5Context.extractPoseFeatures poses).length = 34 := by
  rcases poses with _ | ps
  · rfl
  · rcases ps with _ | ⟨op, rest⟩
    · rfl
    · rcases op with _ | pose
      · rfl
      · rcases pose with ⟨_ | kps⟩
        · rfl
        · simp only [ML5Context.extractPoseFeatures, List.length_take, List.length_append,
            List.length_replicate]
          omega

/-- C9: `extractPoseFeatures` returns exactly 34 numbers for every input —
matching the network's declared 34 inputs — with the all-zero vector when
no pose, a null first pose, or no keypoint list is present, and with a
missing keypoint slot or missing coordinates contributing zeros. -/
theorem C9_extractPoseFeatures_spec (poses : DetectionResults) (rest : List (Option Pose))
    (c : Option ℚ) :
    (ML5Context.extractPoseFeatures poses).length = 34
    ∧ (ML5Context.extractPoseFeatures poses).length = ML5Context.defaultOptions.inputs
    ∧ ML5Context.extractPoseFeatures none = List.replicate 34 0
    ∧ ML5Context.extractPoseFeatures (some []) = List.replicate 34 0
    ∧ ML5Context.extractPoseFeatures (some (none :: rest)) = List.replicate 34 0
    ∧ ML5Context.extractPoseFeatures (some (some { keypoints := none } :: rest))
        = List.replicate 34 0
    ∧ ML5Context.keypointCoords none = [0, 0]
    ∧ ML5Context.keypointCoords (some { x := none, y := none, confidence := c }) = [0, 0] :=
  ⟨extractPoseFeatures_length poses, extractPoseFeatures_length poses, rfl, rfl, rfl, rfl,
    rfl, rfl⟩

/-- C6: `createInstance` removes every previously registered p5 instance
and clears the registry before registering the freshly created instance, so
the registry afterwards holds exactly the one new instance, which is
returned. -/
theorem C6_createInstance_single (s : ML5Context.P5ManagerState) (newInstance : Nat) :
    (ML5Context.createInstance s newInstance).1.instances = [newInstance]
    ∧ (ML5Context.createInstance s newInstance).1.instances.length = 1
    ∧ (ML5Context.createInstance s newInstance).1.removedLog = s.removedLog ++ s.instances
    ∧ (ML5Context.createInstance s newInstance).2 = newInstance :=
  ⟨rfl, rfl, rfl, rfl⟩

/-- C5: the training-completion callback stores the trained network in the
shared handle; the Testing view's init effect adopts exactly the shared
handle as its network and reports the model loaded when it is set, and
reports no trained model available (for either localStorage flag value)
when it is empty. -/
theorem C5_shared_model_handoff (net : ML5Context.Network)
    (st : TrainingAdvanced.CompletionState) (prev : Option ML5Context.Network)
    (m : ML5Context.Network) (flag : Bool) :
    (TrainingAdvanced.onTrainingDone net st).sharedTrainedModel = some net
    ∧ (Testing.modelInitEffect prev
        ((TrainingAdvanced.onTrainingDone net st).sharedTrainedModel) flag).network = some net
    ∧ (Testing.modelInitEffect prev
        ((TrainingAdvanced.onTrainingDone net st).sharedTrainedModel) flag).modelLoaded = true
    ∧ (Testing.modelInitEffect prev (some m) flag).network = some m
    ∧ (Testing.modelInitEffect prev (some m) flag).modelLoaded = true
    ∧ (Testing.modelInitEffect prev none flag).modelLoaded = false
    ∧ (Testing.modelInitEffect prev none flag).network = prev
    ∧ (Testing.modelInitEffect prev none true).modelStatus
        = "❌ Model was trained but not accessible. Please retrain in the same session."
    ∧ (Testing.modelInitEffect prev none false).modelStatus
        = "❌ No trained model found. Please train a model first." := by
  refine ⟨rfl, rfl, rfl, rfl, rfl, ?_, ?_, rfl, rfl⟩ <;> cases flag <;> rfl

/-- C10: `classifyPose` is a total function into label/confidence records
(it never rejects), and on every failure path — missing network, missing or
empty pose list, a classify call that throws, a callback with no results, a
callback with an empty result array — it returns one of the six sentinel
labels with confidence 0. -/
theorem C10_classifyPose_failure_modes (net : ML5Context.Network) (ps : List (Option Pose)) :
    ML5Context.classifyPose (some ps) none
        = { label := "no_model", confidence := 0 }
    ∧ ML5Context.classifyPose none (some net) = { label := "no_pose", confidence := 0 }
    ∧ ML5Context.classifyPose (some []) (some net) = { label := "no_pose", confidence := 0 }
    ∧ (ps ≠ [] → net (ML5Context.extractPoseFeatures (some ps)) = .throwsError →
        ML5Context.classifyPose (some ps) (some net) = { label := "exception", confidence := 0 })
    ∧ (ps ≠ [] → net (ML5Context.extractPoseFeatures (some ps)) = .callbackWith none →
        ML5Context.classifyPose (some ps) (some net)
          = { label := "classification_error", confidence := 0 })
    ∧ (ps ≠ [] → net (ML5Context.extractPoseFeatures (some ps)) = .callbackWith (some []) →
        ML5Context.classifyPose (some ps) (some net)
          = { label := "no_results", confidence := 0 })
    ∧ "no_model" ∈ sentinelLabels ∧ "no_pose" ∈ sentinelLabels
    ∧ "invalid_features" ∈ sentinelLabels ∧ "classification_error" ∈ sentinelLabels
    ∧ "no_results" ∈ sentinelLabels ∧ "exception" ∈ sentinelLabels := by
  refine ⟨rfl, rfl, rfl, ?_, ?_, ?_, by simp [sentinelLabels], by simp [sentinelLabels],
    by simp [sentinelLabels], by simp [sentinelLabels], by simp [sentinelLabels],
    by simp [sentinelLabels]⟩ <;>
  · intro hne hout
    simp only [ML5Context.classifyPose]
    rw [if_neg (by simpa using hne), if_neg (by simp [extractPoseFeatures_length]), hout]

/-- C10 witness: a network that throws yields the exception sentinel with
confidence 0 on a nonempty pose list. -/
theorem C10_classifyPose_failure_modes_witness :
    emptyKeypointPoses ≠ []
    ∧ throwingNetwork (ML5Context.extractPoseFeatures (some emptyKeypointPoses))
        = .throwsError
    ∧ ML5Context.classifyPose (some emptyKeypointPoses) (some throwingNetwork)
        = { label := "exception", confidence := 0 } :=
  ⟨by simp [emptyKeypointPoses], rfl,
    (C10_classifyPose_failure_modes throwingNetwork emptyKeypointPoses).2.2.2.1
      (by simp [emptyKeypointPoses]) rfl⟩

/-- Under poor assessed quality the advanced collector only refreshes the
pose buffer and the quality display. -/
lemma adv_gotPoses_poor (s : TrainingAdvanced.State) (r : DetectionResults)
    (h : TrainingAdvanced.assessPoseQuality r = TrainingAdvanced.Quality.poor) :
    TrainingAdvanced.gotPoses s r
      = { s with poses := r.getD [], poseQuality := TrainingAdvanced.Quality.poor } := by
  simp [TrainingAdvanced.gotPoses, h]

/-- Under a failed `isPoseValid` check the countdown collector only
refreshes the pose buffer. -/
lemma simple_gotPoses_invalid (s : TrainingSimple.State) (r : DetectionResults)
    (h : TrainingSimple.isPoseValid r = false) :
    TrainingSimple.gotPoses s r = { s with poses := r.getD [] } := by
  simp [TrainingSimple.gotPoses, h]

/-- The low-confidence keypoint fails the 0.3 confidence test. -/
lemma lowConfKeypoint_below : confAbove (some lowConfKeypoint) = false := by
  norm_num [confAbove, lowConfKeypoint, CONFIDENCE_THRESHOLD]

/-- The low-confidence sample is graded poor by the advanced quality
assessment. -/
lemma lowQuality_assessed_poor :
    TrainingAdvanced.assessPoseQuality lowQualityResults = TrainingAdvanced.Quality.poor := by
  simp only [TrainingAdvanced.assessPoseQuality, lowQualityResults]
  norm_num [lowConfKeypoint_below]

/-- The low-confidence sample fails the countdown collector's validity
check. -/
lemma lowQuality_invalid :
    TrainingSimple.isPoseValid lowQualityResults = false := by
  simp only [TrainingSimple.isPoseValid, lowQualityResults]
  norm_num [lowConfKeypoint_below]

/-- C1 counterexample: during an active collection window the basic
Training collector adds a frame whose assessed quality is poor (and which
fails the 10-valid-keypoints check) to the training buffer, so not every
collector gates samples on quality. -/
theorem C1_basic_collector_counterexample :
    TrainingAdvanced.assessPoseQuality lowQualityResults = TrainingAdvanced.Quality.poor
    ∧ TrainingSimple.isPoseValid lowQualityResults = false
    ∧ (TrainingBasic.gotPoses basicCollectingState lowQualityResults).trainingBuffer
        = [(ML5Context.extractPoseFeatures lowQualityResults, "guard")]
    ∧ (TrainingBasic.gotPoses basicCollectingState lowQualityResults).samplesCollected = 1 := by
  refine ⟨lowQuality_assessed_poor, lowQuality_invalid, ?_, ?_⟩ <;>
    simp [TrainingBasic.gotPoses, basicCollectingState, lowQualityResults,
      resultsNonempty, firstPoseKeypoints]

/-- C1 (amended): the two quality-gated collectors never add a failing
frame — the advanced Training collector adds a sample only when the
assessed quality is not poor, and the countdown Training collector only
when `isPoseValid` holds — while the basic Training collector (the
counterexample) adds any frame with keypoints during collection without a
quality gate. -/
theorem C1_quality_gate_amended (s3 : TrainingAdvanced.State) (s2 : TrainingSimple.State)
    (r : DetectionResults) :
    (TrainingAdvanced.assessPoseQuality r = TrainingAdvanced.Quality.poor →
      (TrainingAdvanced.gotPoses s3 r).trainingBuffer = s3.trainingBuffer
      ∧ (TrainingAdvanced.gotPoses s3 r).samplesCollected = s3.samplesCollected)
    ∧ (TrainingSimple.isPoseValid r = false →
      (TrainingSimple.gotPoses s2 r).trainingBuffer = s2.trainingBuffer
      ∧ (TrainingSimple.gotPoses s2 r).samplesCollected = s2.samplesCollected)
    ∧ ((TrainingAdvanced.gotPoses s3 r).trainingBuffer ≠ s3.trainingBuffer →
      TrainingAdvanced.assessPoseQuality r ≠ TrainingAdvanced.Quality.poor)
    ∧ ((TrainingSimple.gotPoses s2 r).trainingBuffer ≠ s2.trainingBuffer →
      TrainingSimple.isPoseValid r = true) := by
  refine ⟨?_, ?_, ?_, ?_⟩
  · intro h
    rw [adv_gotPoses_poor s3 r h]
    exact ⟨rfl, rfl⟩
  · intro h
    rw [simple_gotPoses_invalid s2 r h]
    exact ⟨rfl, rfl⟩
  · intro hb h
    exact hb (by rw [adv_gotPoses_poor s3 r h])
  · intro hb
    cases hv : TrainingSimple.isPoseValid r
    · exact absurd (by rw [simple_gotPoses_invalid s2 r hv]) hb
    · rfl

/-- C1 witness: the amended theorem applied to the low-quality sample and
concrete recording states of both gated collectors. -/
theorem C1_quality_gate_amended_witness :
    TrainingAdvanced.assessPoseQuality lowQualityResults = TrainingAdvanced.Quality.poor
    ∧ (TrainingAdvanced.gotPoses advRecordingState lowQualityResults).trainingBuffer
        = advRecordingState.trainingBuffer
    ∧ TrainingSimple.isPoseValid lowQualityResults = false
    ∧ (TrainingSimple.gotPoses simpleCollectingState lowQualityResults).trainingBuffer
        = simpleCollectingState.trainingBuffer :=
  ⟨lowQuality_assessed_poor,
    ((C1_quality_gate_amended advRecordingState simpleCollectingState lowQualityResults).1
      lowQuality_assessed_poor).1,
    lowQuality_invalid,
    ((C1_quality_gate_amended advRecordingState simpleCollectingState lowQualityResults).2.1
      lowQuality_invalid).1⟩

/-- When not recording, the advanced collector only refreshes the pose
buffer and the quality display. -/
lemma adv_gotPoses_not_recording (s : TrainingAdvanced.State) (r : DetectionResults)
    (h : s.isRecording = false) :
    TrainingAdvanced.gotPoses s r
      = { s with poses := r.getD [], poseQuality := TrainingAdvanced.assessPoseQuality r } := by
  simp [TrainingAdvanced.gotPoses, h]

/-- At or above the sample cap, the advanced collector only refreshes the
pose buffer and the quality display. -/
lemma adv_gotPoses_at_cap (s : TrainingAdvanced.State) (r : DetectionResults)
    (h : TrainingAdvanced.SAMPLES_PER_POSE ≤ s.samplesCollected) :
    TrainingAdvanced.gotPoses s r
      = { s with poses := r.getD [], poseQuality := TrainingAdvanced.assessPoseQuality r } := by
  have h' : ¬ (s.samplesCollected < TrainingAdvanced.SAMPLES_PER_POSE) := by omega
  simp [TrainingAdvanced.gotPoses, h']

/-- The detection callback never changes the countdown. -/
lemma adv_gotPoses_countdown (s : TrainingAdvanced.State) (r : DetectionResults) :
    (TrainingAdvanced.gotPoses s r).countdown = s.countdown := by
  simp only [TrainingAdvanced.gotPoses]
  repeat' split
  all_goals rfl

/-- The detection callback can only turn recording off, never on. -/
lemma adv_gotPoses_recording (s : TrainingAdvanced.State) (r : DetectionResults) :
    (TrainingAdvanced.gotPoses s r).isRecording = true → s.isRecording = true := by
  simp only [TrainingAdvanced.gotPoses]
  repeat' split
  all_goals simp_all

/-- The recording-lifecycle invariant of the advanced Training view: while
the pre-recording countdown is running, recording is not yet active. -/
lemma adv_step_countdown_invariant (s : TrainingAdvanced.State) (e : TrainingAdvanced.Event)
    (h : 0 < s.countdown → s.isRecording = false) :
    0 < (TrainingAdvanced.step s e).countdown → (TrainingAdvanced.step s e).isRecording = false := by
  cases e with
  | startRecording =>
    simp only [TrainingAdvanced.step]
    split
    · exact h
    · rename_i hcond
      intro _
      simp only [Bool.or_eq_true, decide_eq_true_eq, not_or] at hcond
      simpa using hcond.1
  | countdownTick =>
    simp only [TrainingAdvanced.step]
    split
    · exact h
    · split
      · simp
      · intro _
        exact h (by omega)
  | setPoseName name =>
    simp only [TrainingAdvanced.step]
    split
    · exact h
    · intro hc
      exact h (by simpa using hc)
  | detect r =>
    simp only [TrainingAdvanced.step]
    intro hc
    have hrec : s.isRecording = false := h (by rw [← adv_gotPoses_countdown s r]; exact hc)
    cases hr : (TrainingAdvanced.gotPoses s r).isRecording
    · rfl
    · exact absurd (adv_gotPoses_recording s r hr) (by simp [hrec])

/-- The invariant holds in every reachable state of the advanced Training
view's recording lifecycle. -/
lemma adv_run_countdown_invariant (events : List TrainingAdvanced.Event) :
    0 < (TrainingAdvanced.run events).countdown → (TrainingAdvanced.run events).isRecording = false := by
  suffices h : ∀ (l : List TrainingAdvanced.Event) (s : TrainingAdvanced.State),
      (0 < s.countdown → s.isRecording = false) →
      (0 < (l.foldl TrainingAdvanced.step s).countdown →
        (l.foldl TrainingAdvanced.step s).isRecording = false) by
    exact h events TrainingAdvanced.initState (by intro hc; exact absurd hc (by simp [TrainingAdvanced.initState]))
  intro l
  induction l with
  | nil => intro s hs; exact hs
  | cons e rest ih =>
    intro s hs
    exact ih (TrainingAdvanced.step s e) (adv_step_countdown_invariant s e hs)

/-- C2: samples reach the network only inside an active recording window —
the countdown collector adds nothing when not collecting, during the
countdown, or at the per-pose cap; the advanced collector adds nothing when
not recording or at its cap; and in every reachable lifecycle state of the
advanced view with a running countdown, the detection callback leaves the
training buffer and the collected-sample count unchanged. -/
theorem C2_no_collection_outside_window (s2 : TrainingSimple.State)
    (s3 : TrainingAdvanced.State) (events : List TrainingAdvanced.Event)
    (r : DetectionResults) :
    (s2.isCollecting = false ∨ s2.isCountdownActive = true
        ∨ TrainingSimple.SAMPLES_PER_POSE ≤ s2.samplesCollected →
      (TrainingSimple.gotPoses s2 r).trainingBuffer = s2.trainingBuffer
      ∧ (TrainingSimple.gotPoses s2 r).samplesCollected = s2.samplesCollected)
    ∧ (s3.isRecording = false ∨ TrainingAdvanced.SAMPLES_PER_POSE ≤ s3.samplesCollected →
      (TrainingAdvanced.gotPoses s3 r).trainingBuffer = s3.trainingBuffer
      ∧ (TrainingAdvanced.gotPoses s3 r).samplesCollected = s3.samplesCollected)
    ∧ (0 < (TrainingAdvanced.run events).countdown →
      (TrainingAdvanced.gotPoses (TrainingAdvanced.run events) r).trainingBuffer
          = (TrainingAdvanced.run events).trainingBuffer
      ∧ (TrainingAdvanced.gotPoses (TrainingAdvanced.run events) r).samplesCollected
          = (TrainingAdvanced.run events).samplesCollected) := by
  refine ⟨?_, ?_, ?_⟩
  · rintro (h | h | h)
    · constructor <;> simp [TrainingSimple.gotPoses, h]
    · constructor <;> simp [TrainingSimple.gotPoses, h]
    · have h' : ¬ (s2.samplesCollected < TrainingSimple.SAMPLES_PER_POSE) := by omega
      constructor <;> simp [TrainingSimple.gotPoses, h']
  · rintro (h | h)
    · rw [adv_gotPoses_not_recording s3 r h]
      exact ⟨rfl, rfl⟩
    · rw [adv_gotPoses_at_cap s3 r h]
      exact ⟨rfl, rfl⟩
  · intro hc
    rw [adv_gotPoses_not_recording (TrainingAdvanced.run events) r
      (adv_run_countdown_invariant events hc)]
    exact ⟨rfl, rfl⟩

/-- C2 witness: a state that is not collecting, a state at the advanced
sample cap, and a reachable state just after the record button was pressed
(the countdown is 3) — in none of them does the callback add a sample. -/
theorem C2_no_collection_outside_window_witness :
    (simpleIdleState.isCollecting = false ∨ simpleIdleState.isCountdownActive = true
        ∨ TrainingSimple.SAMPLES_PER_POSE ≤ simpleIdleState.samplesCollected)
    ∧ (TrainingSimple.gotPoses simpleIdleState decentResults).trainingBuffer
        = simpleIdleState.trainingBuffer
    ∧ TrainingAdvanced.SAMPLES_PER_POSE
        ≤ ({ advRecordingState with samplesCollected := 30 } : TrainingAdvanced.State).samplesCollected
    ∧ (TrainingAdvanced.gotPoses ({ advRecordingState with samplesCollected := 30 }) decentResults).samplesCollected
        = ({ advRecordingState with samplesCollected := 30 } : TrainingAdvanced.State).samplesCollected
    ∧ 0 < (TrainingAdvanced.run [TrainingAdvanced.Event.startRecording]).countdown
    ∧ (TrainingAdvanced.gotPoses (TrainingAdvanced.run [TrainingAdvanced.Event.startRecording])
        decentResults).trainingBuffer
        = (TrainingAdvanced.run [TrainingAdvanced.Event.startRecording]).trainingBuffer :=
  ⟨Or.inl rfl,
    ((C2_no_collection_outside_window simpleIdleState advRecordingState
        [TrainingAdvanced.Event.startRecording] decentResults).1 (Or.inl rfl)).1,
    by decide,
    ((C2_no_collection_outside_window simpleIdleState
        { advRecordingState with samplesCollected := 30 }
        [TrainingAdvanced.Event.startRecording] decentResults).2.1 (Or.inr (by decide))).2,
    by decide,
    ((C2_no_collection_outside_window simpleIdleState advRecordingState
        [TrainingAdvanced.Event.startRecording] decentResults).2.2 (by decide)).1⟩

/-- C7: when the training preconditions hold (two distinct recorded poses
with the expected sample total for the advanced variant, two sessions for
the countdown variant, and an initialized network), the training run
normalizes before it trains, and the model is marked trained and published
to the shared handle only in the training-completion callback. -/
theorem C7_normalize_before_train (sessions : List TrainingAdvanced.TrainingSession)
    (sessions2 : List TrainingSimple.PoseSession)
    (h1 : 2 ≤ ((sessions.map (·.pose)).eraseDups).length)
    (h2 : ((sessions.map (·.pose)).eraseDups).length * TrainingAdvanced.SAMPLES_PER_POSE
        ≤ (sessions.map (·.samplesCollected)).sum)
    (h3 : 2 ≤ sessions2.length) :
    TrainingAdvanced.startTrainingTrace sessions true
        = [TrainEvent.markTrainingStarted, TrainEvent.normalizeDataCall, TrainEvent.trainCall]
    ∧ (TrainingAdvanced.startTrainingTrace sessions true).indexOf TrainEvent.normalizeDataCall
        < (TrainingAdvanced.startTrainingTrace sessions true).indexOf TrainEvent.trainCall
    ∧ TrainEvent.setSharedTrainedModelCall ∉ TrainingAdvanced.startTrainingTrace sessions true
    ∧ TrainEvent.markTrainingComplete ∉ TrainingAdvanced.startTrainingTrace sessions true
    ∧ TrainEvent.setSharedTrainedModelCall ∈ TrainingAdvanced.trainingDoneTrace
    ∧ TrainEvent.markTrainingComplete ∈ TrainingAdvanced.trainingDoneTrace
    ∧ TrainingSimple.trainModelTrace sessions2 true
        = [TrainEvent.markTrainingStarted, TrainEvent.normalizeDataCall, TrainEvent.trainCall]
    ∧ TrainEvent.setSharedTrainedModelCall ∉ TrainingSimple.trainModelTrace sessions2 true
    ∧ TrainEvent.markTrainingComplete ∉ TrainingSimple.trainModelTrace sessions2 true
    ∧ TrainEvent.setSharedTrainedModelCall ∈ TrainingSimple.trainModelDoneTrace
    ∧ TrainEvent.markTrainingComplete ∈ TrainingSimple.trainModelDoneTrace := by
  have hadv : TrainingAdvanced.startTrainingTrace sessions true
      = [TrainEvent.markTrainingStarted, TrainEvent.normalizeDataCall, TrainEvent.trainCall] := by
    simp only [TrainingAdvanced.startTrainingTrace]
    rw [if_neg (by omega), if_neg (by omega)]
    rfl
  have hsimple : TrainingSimple.trainModelTrace sessions2 true
      = [TrainEvent.markTrainingStarted, TrainEvent.normalizeDataCall, TrainEvent.trainCall] := by
    simp only [TrainingSimple.trainModelTrace]
    rw [if_neg (by omega)]
    rfl
  refine ⟨hadv, ?_, ?_, ?_, by decide, by decide, hsimple, ?_, ?_, by decide, by decide⟩ <;>
    first
      | (rw [hadv]; decide)
      | (rw [hsimple]; decide)

/-- C7 witness: two 30-sample sessions with distinct pose names (and two
countdown-variant sessions) satisfy the preconditions. -/
theorem C7_normalize_before_train_witness :
    2 ≤ ((twoAdvSessions.map (·.pose)).eraseDups).length
    ∧ ((twoAdvSessions.map (·.pose)).eraseDups).length * TrainingAdvanced.SAMPLES_PER_POSE
        ≤ (twoAdvSessions.map (·.samplesCollected)).sum
    ∧ 2 ≤ twoSimpleSessions.length
    ∧ TrainingAdvanced.startTrainingTrace twoAdvSessions true
        = [TrainEvent.markTrainingStarted, TrainEvent.normalizeDataCall, TrainEvent.trainCall] :=
  ⟨by decide, by decide, by decide,
    (C7_normalize_before_train twoAdvSessions twoSimpleSessions
      (by decide) (by decide) (by decide)).1⟩

/-- C8: the pose-data bulk-insert route responds 400 on schema-validation
failure and 404 when the video is absent or owned by another user, in both
cases leaving the database unchanged; on success it inserts exactly one
PoseData row per validated frame and responds with that count. -/
theorem C8_postPoseData_spec (db : Backend.Db) (uid vid : String) (body : Backend.Json)
    (frames : List Backend.PoseFrame) (v : Backend.Video) :
    (Backend.parsePoseData body = none →
      Backend.postPoseData db uid vid body = (db, Backend.RouteResponse.badRequest))
    ∧ (Backend.parsePoseData body = some frames →
       db.videos.find? (fun w => w.id == vid && w.userId == uid) = none →
      Backend.postPoseData db uid vid body = (db, Backend.RouteResponse.notFound))
    ∧ (Backend.parsePoseData body = some frames →
       db.videos.find? (fun w => w.id == vid && w.userId == uid) = some v →
      (Backend.postPoseData db uid vid body).2 = Backend.RouteResponse.ok frames.length
      ∧ (Backend.postPoseData db uid vid body).1.poseData
          = db.poseData ++ frames.map (fun f =>
              { videoId := vid, frameIndex := f.frameIndex, keypoints := f.keypoints,
                timestamp := f.timestamp })
      ∧ (Backend.postPoseData db uid vid body).1.videos = db.videos) := by
  refine ⟨?_, ?_, ?_⟩
  · intro h
    simp [Backend.postPoseData, h]
  · intro h hfind
    simp [Backend.postPoseData, h, hfind]
  · intro h hfind
    simp [Backend.postPoseData, h, hfind]

/-- C8 witness: the route applied to a one-video database — a valid
one-frame body inserts one row and responds with count 1, an invalid body
responds 400, and a foreign video id responds 404, leaving the database
unchanged in both error cases. -/
theorem C8_postPoseData_spec_witness :
    Backend.parsePoseData invalidBody = none
    ∧ Backend.postPoseData sampleDb "u1" "v1" invalidBody
        = (sampleDb, Backend.RouteResponse.badRequest)
    ∧ Backend.parsePoseData sampleBody = some sampleFrames
    ∧ sampleDb.videos.find? (fun w => w.id == "v2" && w.userId == "u1") = none
    ∧ Backend.postPoseData sampleDb "u1" "v2" sampleBody
        = (sampleDb, Backend.RouteResponse.notFound)
    ∧ sampleDb.videos.find? (fun w => w.id == "v1" && w.userId == "u1")
        = some { id := "v1", userId := "u1" }
    ∧ (Backend.postPoseData sampleDb "u1" "v1" sampleBody).2 = Backend.RouteResponse.ok 1
    ∧ (Backend.postPoseData sampleDb "u1" "v1" sampleBody).1.poseData.length = 1 := by
  have h400 := (C8_postPoseData_spec sampleDb "u1" "v1" invalidBody sampleFrames
    { id := "v1", userId := "u1" }).1 rfl
  have h404 := (C8_postPoseData_spec sampleDb "u1" "v2" sampleBody sampleFrames
    { id := "v1", userId := "u1" }).2.1 rfl rfl
  have hok := (C8_postPoseData_spec sampleDb "u1" "v1" sampleBody sampleFrames
    { id := "v1", userId := "u1" }).2.2 rfl rfl
  refine ⟨rfl, h400, rfl, rfl, h404, rfl, hok.1, ?_⟩
  rw [hok.2.1]
  rfl

/-- When a guard or the debounce fails, `performClassification` is the
identity. -/
lemma performClassification_not_ran (s : Testing.State) (now : Int)
    (h : Testing.guardsPass s = false ∨ Testing.debouncePasses s now = false) :
    Testing.performClassification s now = s := by
  unfold Testing.performClassification
  rcases h with h | h
  · rw [if_pos h]
  · by_cases hg : Testing.guardsPass s = false
    · rw [if_pos hg]
    · rw [if_neg hg, if_pos h]

/-- When the guards and the debounce pass, `performClassification` records
the attempt time, logs the classify call and surfaces the result. -/
lemma performClassification_ran (s : Testing.State) (now : Int)
    (hg : Testing.guardsPass s = true) (hd : Testing.debouncePasses s now = true) :
    Testing.performClassification s now =
      Testing.surfaceResult
        { s with lastPredictionTime := now, classifyCallLog := s.classifyCallLog ++ [now] }
        (ML5Context.classifyPose (some s.poses) s.network) now := by
  unfold Testing.performClassification
  rw [if_neg (by simp [hg]), if_neg (by simp [hd])]

/-- Surfacing an accepted result stores it as the current prediction and
prepends it to the capped history. -/
lemma surfaceResult_accept (s : Testing.State) (res : ML5Context.ClassificationResult)
    (now : Int) (h1 : res.label ≠ "") (h2 : res.label ∉ sentinelLabels)
    (h3 : s.confidenceThreshold ≤ res.confidence) :
    Testing.surfaceResult s res now =
      { s with
        currentPrediction :=
          some { label := res.label, confidence := res.confidence, timestamp := now },
        predictionHistory :=
          { label := res.label, confidence := res.confidence, timestamp := now }
            :: s.predictionHistory.take 19 } := by
  unfold Testing.surfaceResult
  rw [if_pos ⟨h1, h2, h3⟩]

/-- Surfacing a `no_pose` result clears the current prediction and leaves
the history alone. -/
lemma surfaceResult_no_pose (s : Testing.State) (res : ML5Context.ClassificationResult)
    (now : Int) (h : res.label = "no_pose") :
    Testing.surfaceResult s res now = { s with currentPrediction := none } := by
  unfold Testing.surfaceResult
  rw [if_neg (by rintro ⟨-, hmem, -⟩; exact hmem (by rw [h]; simp [sentinelLabels])), if_pos h]

/-- Surfacing a rejected result other than `no_pose` changes nothing. -/
lemma surfaceResult_reject (s : Testing.State) (res : ML5Context.ClassificationResult)
    (now : Int)
    (h2 : res.label ∈ sentinelLabels ∨ res.confidence < s.confidenceThreshold)
    (h3 : res.label ≠ "no_pose") :
    Testing.surfaceResult s res now = s := by
  unfold Testing.surfaceResult
  rw [if_neg ?_, if_neg h3]
  rintro ⟨-, hmem, hconf⟩
  rcases h2 with h2 | h2
  · exact hmem h2
  · exact absurd hconf (not_le.mpr h2)

/-- Whenever the acceptance condition fails, the history is unchanged. -/
lemma surfaceResult_not_accept (s : Testing.State) (res : ML5Context.ClassificationResult)
    (now : Int)
    (h : ¬(res.label ≠ "" ∧ res.label ∉ sentinelLabels
        ∧ s.confidenceThreshold ≤ res.confidence)) :
    (Testing.surfaceResult s res now).predictionHistory = s.predictionHistory := by
  unfold Testing.surfaceResult
  rw [if_neg h]
  split <;> rfl

/-- Surfacing never touches the classify log, the last attempt time or the
prediction speed. -/
lemma surfaceResult_untouched (s : Testing.State) (res : ML5Context.ClassificationResult)
    (now : Int) :
    (Testing.surfaceResult s res now).classifyCallLog = s.classifyCallLog
    ∧ (Testing.surfaceResult s res now).lastPredictionTime = s.lastPredictionTime
    ∧ (Testing.surfaceResult s res now).predictionSpeed = s.predictionSpeed := by
  simp only [Testing.surfaceResult]
  repeat' split
  all_goals exact ⟨rfl, rfl, rfl⟩

/-- C3: a classification result becomes the current prediction and is
prepended to the history exactly when the classifier ran and the result has
a nonempty non-sentinel label with confidence at or above the user
threshold; a `no_pose` result clears the current prediction; every other
result (sentinel label or below-threshold confidence) leaves current
prediction and history unchanged, and any history change implies the result
was non-sentinel and at or above the threshold. -/
theorem C3_prediction_surfacing (s : Testing.State) (now : Int) :
    ((Testing.guardsPass s = false ∨ Testing.debouncePasses s now = false) →
      Testing.performClassification s now = s)
    ∧ (Testing.guardsPass s = true → Testing.debouncePasses s now = true →
       (ML5Context.classifyPose (some s.poses) s.network).label ≠ "" →
       (ML5Context.classifyPose (some s.poses) s.network).label ∉ sentinelLabels →
       s.confidenceThreshold ≤ (ML5Context.classifyPose (some s.poses) s.network).confidence →
      (Testing.performClassification s now).currentPrediction
          = some { label := (ML5Context.classifyPose (some s.poses) s.network).label,
                   confidence := (ML5Context.classifyPose (some s.poses) s.network).confidence,
                   timestamp := now }
      ∧ (Testing.performClassification s now).predictionHistory
          = { label := (ML5Context.classifyPose (some s.poses) s.network).label,
              confidence := (ML5Context.classifyPose (some s.poses) s.network).confidence,
              timestamp := now } :: s.predictionHistory.take 19)
    ∧ (Testing.guardsPass s = true → Testing.debouncePasses s now = true →
       (ML5Context.classifyPose (some s.poses) s.network).label = "no_pose" →
      (Testing.performClassification s now).currentPrediction = none
      ∧ (Testing.performClassification s now).predictionHistory = s.predictionHistory)
    ∧ (Testing.guardsPass s = true → Testing.debouncePasses s now = true →
       ((ML5Context.classifyPose (some s.poses) s.network).label ∈ sentinelLabels
         ∨ (ML5Context.classifyPose (some s.poses) s.network).confidence < s.confidenceThreshold) →
       (ML5Context.classifyPose (some s.poses) s.network).label ≠ "no_pose" →
      (Testing.performClassification s now).currentPrediction = s.currentPrediction
      ∧ (Testing.performClassification s now).predictionHistory = s.predictionHistory)
    ∧ ((Testing.performClassification s now).predictionHistory ≠ s.predictionHistory →
      Testing.guardsPass s = true ∧ Testing.debouncePasses s now = true
      ∧ (ML5Context.classifyPose (some s.poses) s.network).label ∉ sentinelLabels
      ∧ s.confidenceThreshold ≤ (ML5Context.classifyPose (some s.poses) s.network).confidence) := by
  refine ⟨performClassification_not_ran s now, ?_, ?_, ?_, ?_⟩
  · intro hg hd h1 h2 h3
    rw [performClassification_ran s now hg hd,
      surfaceResult_accept
        { s with lastPredictionTime := now, classifyCallLog := s.classifyCallLog ++ [now] }
        (ML5Context.classifyPose (some s.poses) s.network) now h1 h2 h3]
    exact ⟨rfl, rfl⟩
  · intro hg hd hnp
    rw [performClassification_ran s now hg hd, surfaceResult_no_pose _ _ _ hnp]
    exact ⟨rfl, rfl⟩
  · intro hg hd hrej hne
    rw [performClassification_ran s now hg hd,
      surfaceResult_reject
        { s with lastPredictionTime := now, classifyCallLog := s.classifyCallLog ++ [now] }
        (ML5Context.classifyPose (some s.poses) s.network) now hrej hne]
    exact ⟨rfl, rfl⟩
  · intro hb
    cases hgb : Testing.guardsPass s with
    | false => exact absurd (by rw [performClassification_not_ran s now (Or.inl hgb)]) hb
    | true =>
      cases hdb : Testing.debouncePasses s now with
      | false => exact absurd (by rw [performClassification_not_ran s now (Or.inr hdb)]) hb
      | true =>
        by_cases hacc : ((ML5Context.classifyPose (some s.poses) s.network).label ≠ ""
            ∧ (ML5Context.classifyPose (some s.poses) s.network).label ∉ sentinelLabels
            ∧ s.confidenceThreshold
                ≤ (ML5Context.classifyPose (some s.poses) s.network).confidence)
        · exact ⟨rfl, rfl, hacc.2.1, hacc.2.2⟩
        · refine absurd ?_ hb
          rw [performClassification_ran s now hgb hdb]
          exact surfaceResult_not_accept _ _ _ hacc

/-- C3 witness: in a ready state, a classify call that reports guard with
confidence 9/10 (above the 1/2 threshold) is surfaced as the current
prediction and prepended to the history. -/
theorem C3_prediction_surfacing_witness :
    Testing.guardsPass testingReadyState = true
    ∧ Testing.debouncePasses testingReadyState 1000 = true
    ∧ (ML5Context.classifyPose (some testingReadyState.poses) testingReadyState.network).label
        ≠ ""
    ∧ (ML5Context.classifyPose (some testingReadyState.poses) testingReadyState.network).label
        ∉ sentinelLabels
    ∧ testingReadyState.confidenceThreshold
        ≤ (ML5Context.classifyPose (some testingReadyState.poses) testingReadyState.network).confidence
    ∧ (Testing.performClassification testingReadyState 1000).predictionHistory
        = [{ label := "guard", confidence := 9 / 10, timestamp := 1000 }] := by
  have hconf : testingReadyState.confidenceThreshold
      ≤ (ML5Context.classifyPose (some testingReadyState.poses)
          testingReadyState.network).confidence := by
    rw [show (ML5Context.classifyPose (some testingReadyState.poses)
      testingReadyState.network).confidence = 9 / 10 from rfl]
    norm_num [testingReadyState]
  refine ⟨rfl, by decide, by decide, by decide, hconf, ?_⟩
  exact ((C3_prediction_surfacing testingReadyState 1000).2.1 rfl (by decide) (by decide)
    (by decide) hconf).2

/-- Both branch outcomes of one `performClassification` invocation: either
the state is untouched, or the call time is appended to the classify log,
becomes the last attempt time, and is at least `predictionSpeed` after the
previous attempt time. -/
lemma perform_log_cases (s : Testing.State) (now : Int) :
    Testing.performClassification s now = s
    ∨ ((Testing.performClassification s now).classifyCallLog = s.classifyCallLog ++ [now]
      ∧ (Testing.performClassification s now).lastPredictionTime = now
      ∧ (Testing.performClassification s now).predictionSpeed = s.predictionSpeed
      ∧ s.lastPredictionTime + s.predictionSpeed ≤ now) := by
  cases hgb : Testing.guardsPass s with
  | false => exact Or.inl (performClassification_not_ran s now (Or.inl hgb))
  | true =>
    cases hdb : Testing.debouncePasses s now with
    | false => exact Or.inl (performClassification_not_ran s now (Or.inr hdb))
    | true =>
      refine Or.inr ?_
      have hle : s.predictionSpeed ≤ now - s.lastPredictionTime := by
        have hdb' := hdb
        simp only [Testing.debouncePasses, decide_eq_true_eq] at hdb'
        exact hdb'
      rw [performClassification_ran s now hgb hdb]
      exact ⟨(surfaceResult_untouched _ _ _).1, (surfaceResult_untouched _ _ _).2.1,
        (surfaceResult_untouched _ _ _).2.2, by omega⟩

/-- Appending a time at least `d` after every logged time preserves
`d`-spacing. -/
lemma spacedBy_append (d x : Int) :
    ∀ (l : List Int), Testing.spacedBy d l = true → (∀ a ∈ l, a + d ≤ x) →
      Testing.spacedBy d (l ++ [x]) = true := by
  intro l
  induction l with
  | nil => intro _ _; rfl
  | cons a tail ih =>
    cases tail with
    | nil =>
      intro _ h
      simp [Testing.spacedBy, h a (by simp)]
    | cons b tail2 =>
      intro hs h
      simp only [Testing.spacedBy, Bool.and_eq_true] at hs
      simp only [List.cons_append, Testing.spacedBy, Bool.and_eq_true]
      exact ⟨hs.1, ih hs.2 (fun y hy => h y (List.mem_cons_of_mem a hy))⟩

/-- Invariant of the prediction loop: a spaced classify log whose entries
are all at most the last attempt time stays spaced (with all entries at
most the last attempt time) under any sequence of invocations. -/
lemma run_spaced (times : List Int) :
    ∀ (s : Testing.State), 0 ≤ s.predictionSpeed →
      Testing.spacedBy s.predictionSpeed s.classifyCallLog = true →
      (∀ a ∈ s.classifyCallLog, a ≤ s.lastPredictionTime) →
      Testing.spacedBy s.predictionSpeed
          (Testing.runClassifications s times).classifyCallLog = true
      ∧ (∀ a ∈ (Testing.runClassifications s times).classifyCallLog,
          a ≤ (Testing.runClassifications s times).lastPredictionTime)
      ∧ (Testing.runClassifications s times).predictionSpeed = s.predictionSpeed := by
  induction times with
  | nil => intro s _ h1 h2; exact ⟨h1, h2, rfl⟩
  | cons t ts ih =>
    intro s h0 h1 h2
    have hrun : Testing.runClassifications s (t :: ts)
        = Testing.runClassifications (Testing.performClassification s t) ts := rfl
    rcases perform_log_cases s t with hcase | ⟨hlog, hlast, hspeed, hle⟩
    · rw [hrun, hcase]
      exact ih s h0 h1 h2
    · rw [hrun]
      have h0' : 0 ≤ (Testing.performClassification s t).predictionSpeed := by
        rw [hspeed]; exact h0
      have h1' : Testing.spacedBy (Testing.performClassification s t).predictionSpeed
          (Testing.performClassification s t).classifyCallLog = true := by
        rw [hspeed, hlog]
        exact spacedBy_append _ _ _ h1 (fun a ha => by have := h2 a ha; omega)
      have h2' : ∀ a ∈ (Testing.performClassification s t).classifyCallLog,
          a ≤ (Testing.performClassification s t).lastPredictionTime := by
        rw [hlog, hlast]
        intro a ha
        rcases List.mem_append.mp ha with ha | ha
        · have := h2 a ha; omega
        · simp only [List.mem_singleton] at ha; omega
      have hres := ih (Testing.performClassification s t) h0' h1' h2'
      exact ⟨by rw [← hspeed]; exact hres.1, hres.2.1, by rw [hres.2.2, hspeed]⟩

/-- C4: the prediction loop is time-debounced — an invocation makes no
classify call when a guard fails or fewer than `predictionSpeed` ms have
passed since the last attempt, and over any sequence of invocations started
with an empty log, any two successive classify calls are at least
`predictionSpeed` ms apart. -/
theorem C4_debounced_classification (s : Testing.State) (now : Int) (times : List Int) :
    ((Testing.guardsPass s = false ∨ Testing.debouncePasses s now = false) →
      (Testing.performClassification s now).classifyCallLog = s.classifyCallLog)
    ∧ (s.classifyCallLog = [] → 0 ≤ s.predictionSpeed →
      Testing.spacedBy s.predictionSpeed
        (Testing.runClassifications s times).classifyCallLog = true) := by
  constructor
  · intro h
    rw [performClassification_not_ran s now h]
  · intro hlog h0
    exact (run_spaced times s h0 (by rw [hlog]; rfl) (by rw [hlog]; intro a ha; cases ha)).1

/-- C4 witness: with classification disabled no call is logged, and a run
at times 1000, 1100, 1600 from an empty log keeps successive classify
calls at least 500 ms apart. -/
theorem C4_debounced_classification_witness :
    (Testing.guardsPass testingDisabledState = false
      ∨ Testing.debouncePasses testingDisabledState 1000 = false)
    ∧ (Testing.performClassification testingDisabledState 1000).classifyCallLog
        = testingDisabledState.classifyCallLog
    ∧ testingReadyState.classifyCallLog = []
    ∧ 0 ≤ testingReadyState.predictionSpeed
    ∧ Testing.spacedBy testingReadyState.predictionSpeed
        (Testing.runClassifications testingReadyState [1000, 1100, 1600]).classifyCallLog
        = true :=
  ⟨Or.inl rfl,
    (C4_debounced_classification testingDisabledState 1000 [1000, 1100, 1600]).1 (Or.inl rfl),
    rfl, by decide,
    (C4_debounced_classification testingReadyState 1000 [1000, 1100, 1600]).2 rfl (by decide)⟩

end BjjPose
